import Mathlib

/-!
Verification development for `src/context_benchmarks.py`, an LLM
context-size benchmarking harness.  The file shallowly embeds the
program's core: the token estimator (`calculate_tokens_accurate`), the
stream consumer (`process_stream`), the request driver
(`make_context_request`), the sequential-mode orchestrator loop of
`run_context_benchmark`, and the result analyzer
(`analyze_context_results`), then proves theorems about the claims of
the specification.

Conventions of the embedding:
* Wall-clock instants and durations are rationals (`ℚ`), modelling the
  Python float arithmetic exactly.
* Text is `List Char`.
* `tiktoken` is taken as unavailable (`TIKTOKEN_AVAILABLE = False`), so
  the estimator is the character-heuristic fallback path of the source;
  the `model_name` argument is dropped because only the tiktoken branch
  reads it.
* The network is abstracted: one request's transport behaviour is an
  explicit input (`TransportResult`), and a delivered stream is a list
  of events, each a chunk or an exception raised between chunks.
-/

namespace ContextBenchmarks

/-- A character counts as Chinese/CJK when its codepoint lies in
U+4E00..U+9FFF, the source's comparison of the character against the
two bounds of that range. -/
def isCJK (c : Char) : Bool := 0x4E00 ≤ c.toNat && c.toNat ≤ 0x9FFF

/-- The source's `chinese_chars`: the number of CJK characters of the text. -/
def chinese_chars (text : List Char) : ℕ := (text.filter isCJK).length

/-- The source's `english_chars = len(text) - chinese_chars`. -/
def english_chars (text : List Char) : ℕ := text.length - chinese_chars text

/-- `calculate_tokens_accurate` on the heuristic fallback path.  Python's
`int()` on the nonnegative float sum is truncation, i.e. `Int.floor`
followed by `Int.toNat`; `if not text: return 0` is the emptiness test. -/
def calculate_tokens_accurate (text : List Char) : ℕ :=
  if text = [] then 0
  else
    let chinese := chinese_chars text
    let english := english_chars text
    let chinese_tokens : ℚ := if 0 < chinese then (chinese : ℚ) / 1.5 else 0
    let english_tokens : ℚ := if 0 < english then (english : ℚ) / 4.0 else 0
    max 1 (Int.toNat ⌊chinese_tokens + english_tokens⌋)

/-- One streamed chunk as the consumer reads it: optional incremental
content text, optional incremental reasoning text, and an optional
finish-reason marker. -/
structure Chunk where
  content : Option (List Char)
  reasoning_content : Option (List Char)
  finish_reason : Option String
  deriving DecidableEq

/-- One event observed while iterating the stream: either the next chunk,
or an exception (with its message and Python type name) raised by the
iteration itself at that point. -/
inductive StreamEvent where
  | chunk (c : Chunk)
  | error (msg ty : String)
  deriving DecidableEq

/-- The text a chunk contributes to the content buffer.  The source guards
with the truthiness of `delta.content`, so `none` contributes nothing;
an empty string is falsy there, but appending the empty string is also a
no-op, so `Option.getD` is an exact model. -/
def chunkContent (ch : Chunk) : List Char := ch.content.getD []

/-- The text a chunk contributes to the reasoning buffer (same convention
as `chunkContent`). -/
def chunkReasoning (ch : Chunk) : List Char := ch.reasoning_content.getD []

/-- Outcome of the chunk-iteration loop of `process_stream`: either it ran
to completion (end of stream, or a chunk carried a finish reason), or an
exception was raised mid-iteration, in which case the handler sees the
first-token time and the content accumulated so far. -/
inductive LoopResult where
  | done (first_token_time : Option ℚ) (total_content total_reasoning : List Char)
      (chunk_count : ℕ)
  | raised (msg ty : String) (first_token_time : Option ℚ) (total_content : List Char)
  deriving DecidableEq

/-- The `async for chunk in stream` loop of `process_stream`.  `tFirst` is
the wall-clock reading `time.time()` would give at the first chunk (only
the first chunk's time is ever recorded).  Per iteration the source
increments `chunk_count`, records the first-token time if not yet set,
appends the chunk's content and reasoning contributions, and breaks once
`finish_reason` is non-null. -/
def streamLoop (tFirst : ℚ) (ftt : Option ℚ) (content reasoning : List Char)
    (count : ℕ) : List StreamEvent → LoopResult
  | [] => .done ftt content reasoning count
  | .error m ty :: _ => .raised m ty ftt content
  | .chunk ch :: rest =>
    let ftt1 := some (ftt.getD tFirst)
    let content1 := content ++ chunkContent ch
    let reasoning1 := reasoning ++ chunkReasoning ch
    if ch.finish_reason.isSome then .done ftt1 content1 reasoning1 (count + 1)
    else streamLoop tFirst ftt1 content1 reasoning1 (count + 1) rest

/-- `process_stream`: run the loop, estimate tokens for both buffers,
apply the zero-token guard (`chunk_count > 0 and total_tokens == 0`
forces one token), and return
`(first_token_time, total_tokens, content_tokens, reasoning_tokens)`.
An exception raised after the first token was seen is salvaged into a
partial success; one raised before that propagates (`Except.error`). -/
def process_stream (tFirst : ℚ) (events : List StreamEvent) :
    Except (String × String) (Option ℚ × ℕ × ℕ × ℕ) :=
  match streamLoop tFirst none [] [] 0 events with
  | .done ftt content reasoning count =>
    let content_tokens := if content ≠ [] then calculate_tokens_accurate content else 0
    let reasoning_tokens := if reasoning ≠ [] then calculate_tokens_accurate reasoning else 0
    let total_tokens := content_tokens + reasoning_tokens
    if 0 < count ∧ total_tokens = 0 then .ok (ftt, 1, 1, reasoning_tokens)
    else .ok (ftt, total_tokens, content_tokens, reasoning_tokens)
  | .raised m ty ftt content =>
    match ftt with
    | some t =>
      let estimated_tokens := if content ≠ [] then calculate_tokens_accurate content else 1
      .ok (some t, estimated_tokens, estimated_tokens, 0)
    | none => .error (m, ty)

/-- The content text accumulated over a list of events, used to state what
the salvage path of `process_stream` estimates from. -/
def accContent : List StreamEvent → List Char
  | [] => []
  | .chunk ch :: rest => chunkContent ch ++ accContent rest
  | .error _ _ :: rest => accContent rest

/-- An event is a plain data chunk carrying no finish reason. -/
def isOpenChunk : StreamEvent → Bool
  | .chunk ch => ch.finish_reason.isNone
  | .error _ _ => false

/-- The per-request data computed on the success path of
`make_context_request`. -/
structure SuccessData where
  total_tokens : ℕ
  content_tokens : ℕ
  reasoning_tokens : ℕ
  elapsed_time : ℚ
  generation_throughput : ℚ
  prompt_throughput : ℚ
  ttft : Option ℚ
  start_time : ℚ
  end_time : ℚ
  deriving DecidableEq

/-- Shape of a request outcome: a success dict carries the timing and
token fields, a failure dict carries only the error message and (except
for the timeout branch) the Python exception type name. -/
inductive Payload where
  | ok (d : SuccessData)
  | fail (error : String) (error_type : Option String)
  deriving DecidableEq

/-- One request outcome.  The fields besides the payload are present on
success and failure dicts alike in the source. -/
structure RequestOutcome where
  request_id : String
  context_size : String
  context_char_count : ℕ
  prompt_char_count : ℕ
  prompt_tokens_estimate : ℕ
  payload : Payload
  deriving DecidableEq

/-- The `success` flag of an outcome dict. -/
def RequestOutcome.success (r : RequestOutcome) : Bool :=
  match r.payload with
  | .ok _ => true
  | .fail _ _ => false

/-- What the abstracted transport does for one request: the `create` call
raises (a transport error), the guarded consumption times out
(`asyncio.TimeoutError` from `wait_for`), or a stream is delivered whose
iteration produces the given events, `tFirst` being the wall-clock time
at its first chunk. -/
inductive TransportResult where
  | raised (msg ty : String)
  | timeout
  | stream (tFirst : ℚ) (events : List StreamEvent)
  deriving DecidableEq

/-- Prompt construction of `make_context_request`: the `13t` probe
template is sent verbatim; every other size gets the (injected) question
appended after a blank line. -/
def fullPrompt (context_size : String) (context_content question : List Char) :
    List Char :=
  if context_size = "13t" then context_content
  else context_content ++ ['\n', '\n'] ++ question

/-- The driver's `ttft` computation
`first_token_time - start_time if first_token_time else None`: Python
truthiness, under which both `None` and the float `0.0` are falsy. -/
def ttftOf (start_time : ℚ) (first_token_time : Option ℚ) : Option ℚ :=
  match first_token_time with
  | some t => if t ≠ 0 then some (t - start_time) else none
  | none => none

/-- The driver's generation-throughput computation:
`total_tokens / elapsed_time if elapsed_time > 0 and total_tokens > 0
else 0`. -/
def generationThroughputOf (elapsed_time : ℚ) (total_tokens : ℕ) : ℚ :=
  if 0 < elapsed_time ∧ 0 < total_tokens then (total_tokens : ℚ) / elapsed_time
  else 0

/-- The driver's prompt-throughput computation:
`prompt_tokens_estimate / ttft if ttft and ttft > 0 else 0` (again the
truthy `ttft` is exactly a non-`None` `ttft` that passes `ttft > 0`). -/
def promptThroughputOf (prompt_tokens_estimate : ℕ) (ttft : Option ℚ) : ℚ :=
  match ttft with
  | some x => if 0 < x then (prompt_tokens_estimate : ℚ) / x else 0
  | none => 0

/-- `make_context_request`.  The outcome is a function of the template
(`context_size`, `context_content`), the question drawn for this request
(injected, like the random source), the request's start and end
wall-clock times, and the transport behaviour.  The `output_tokens`
budget and `request_timeout` only parameterize the abstracted transport
and are absorbed into `TransportResult`. -/
def make_context_request (context_size : String)
    (context_content question : List Char) (request_id : String)
    (start_time end_time : ℚ) (tr : TransportResult) : RequestOutcome :=
  let full_prompt := fullPrompt context_size context_content question
  let context_char_count := context_content.length
  let prompt_char_count := full_prompt.length
  let prompt_tokens_estimate := calculate_tokens_accurate full_prompt
  match tr with
  | .timeout =>
    { request_id := request_id, context_size := context_size,
      context_char_count := context_char_count,
      prompt_char_count := prompt_char_count,
      prompt_tokens_estimate := prompt_tokens_estimate,
      payload := .fail "timeout" none }
  | .raised m ty =>
    { request_id := request_id, context_size := context_size,
      context_char_count := context_char_count,
      prompt_char_count := prompt_char_count,
      prompt_tokens_estimate := prompt_tokens_estimate,
      payload := .fail m (some ty) }
  | .stream tFirst events =>
    match process_stream tFirst events with
    | .error (m, ty) =>
      { request_id := request_id, context_size := context_size,
        context_char_count := context_char_count,
        prompt_char_count := prompt_char_count,
        prompt_tokens_estimate := prompt_tokens_estimate,
        payload := .fail m (some ty) }
    | .ok (first_token_time, total_tokens, content_tokens, reasoning_tokens) =>
      let elapsed_time := end_time - start_time
      let ttft : Option ℚ := ttftOf start_time first_token_time
      let generation_throughput : ℚ :=
        generationThroughputOf elapsed_time total_tokens
      let prompt_throughput : ℚ :=
        promptThroughputOf prompt_tokens_estimate ttft
      { request_id := request_id, context_size := context_size,
        context_char_count := context_char_count,
        prompt_char_count := prompt_char_count,
        prompt_tokens_estimate := prompt_tokens_estimate,
        payload := .ok
          { total_tokens := total_tokens, content_tokens := content_tokens,
            reasoning_tokens := reasoning_tokens, elapsed_time := elapsed_time,
            generation_throughput := generation_throughput,
            prompt_throughput := prompt_throughput, ttft := ttft,
            start_time := start_time, end_time := end_time } }

/-- One context size's result group: the size label, the concurrency used,
and the outcomes collected for it. -/
structure ResultGroup where
  context_size : String
  concurrency : ℕ
  results : List RequestOutcome
  deriving DecidableEq

/-- The sequential-mode inner loop of `run_context_benchmark`
(`concurrency == 1`): issue requests one at a time — the oracle `req`
gives attempt `i`'s outcome — appending each outcome to the size's
results; stop after the first failed outcome, reporting in the flag
whether the size failed (`test_failed`).  The inter-request
`asyncio.sleep(1)` has no observable effect on the collected results. -/
def seqLoop (req : ℕ → RequestOutcome) : ℕ → ℕ → List RequestOutcome × Bool
  | _, 0 => ([], false)
  | i, fuel + 1 =>
    let r := req i
    if r.success then
      let rest := seqLoop req (i + 1) fuel
      (r :: rest.1, rest.2)
    else ([r], true)

/-- `run_context_benchmark` in sequential mode: process the sizes strictly
in order; after a size whose loop reported a failure, append that size's
group and stop (`if test_failed: break`).  `req s i` is the outcome
`make_context_request` returns for attempt `i` of size `s`. -/
def run_context_benchmark (req : String → ℕ → RequestOutcome)
    (num_requests_per_size : ℕ) : List String → List ResultGroup
  | [] => []
  | s :: rest =>
    let sr := seqLoop (req s) 0 num_requests_per_size
    { context_size := s, concurrency := 1, results := sr.1 } ::
      (if sr.2 then [] else run_context_benchmark req num_requests_per_size rest)

/-- Elapsed time of an outcome; the analyzer only reads it from outcomes
already filtered to successful ones, where the field is present. -/
def RequestOutcome.elapsedTime (r : RequestOutcome) : ℚ :=
  match r.payload with
  | .ok d => d.elapsed_time
  | .fail _ _ => 0

/-- Generation throughput of an outcome (read only on successes). -/
def RequestOutcome.generationThroughput (r : RequestOutcome) : ℚ :=
  match r.payload with
  | .ok d => d.generation_throughput
  | .fail _ _ => 0

/-- Prompt throughput of an outcome (read only on successes). -/
def RequestOutcome.promptThroughput (r : RequestOutcome) : ℚ :=
  match r.payload with
  | .ok d => d.prompt_throughput
  | .fail _ _ => 0

/-- The nullable `ttft` field of an outcome (read only on successes). -/
def RequestOutcome.ttftField (r : RequestOutcome) : Option ℚ :=
  match r.payload with
  | .ok d => d.ttft
  | .fail _ _ => none

/-- The `total_tokens` field of a success outcome. -/
def RequestOutcome.totalTokens (r : RequestOutcome) : ℕ :=
  match r.payload with
  | .ok d => d.total_tokens
  | .fail _ _ => 0

/-- The `content_tokens` field of a success outcome. -/
def RequestOutcome.contentTokens (r : RequestOutcome) : ℕ :=
  match r.payload with
  | .ok d => d.content_tokens
  | .fail _ _ => 0

/-- The `reasoning_tokens` field of a success outcome. -/
def RequestOutcome.reasoningTokens (r : RequestOutcome) : ℕ :=
  match r.payload with
  | .ok d => d.reasoning_tokens
  | .fail _ _ => 0

/-- The analyzer's `successful_results` comprehension. -/
def successfulResults (results : List RequestOutcome) : List RequestOutcome :=
  results.filter RequestOutcome.success

/-- The analyzer's `latencies` sample: elapsed times of all successful
outcomes. -/
def latencies (results : List RequestOutcome) : List ℚ :=
  (successfulResults results).map RequestOutcome.elapsedTime

/-- The analyzer's `generation_tps_values` sample: generation throughputs
of all successful outcomes. -/
def generation_tps_values (results : List RequestOutcome) : List ℚ :=
  (successfulResults results).map RequestOutcome.generationThroughput

/-- The analyzer's `prompt_tps_values` sample: prompt throughputs of the
successful outcomes whose value is strictly positive. -/
def prompt_tps_values (results : List RequestOutcome) : List ℚ :=
  ((successfulResults results).filter
      (fun r => decide (0 < r.promptThroughput))).map
    RequestOutcome.promptThroughput

/-- The analyzer's `ttft_values` sample: the non-null TTFTs of the
successful outcomes. -/
def ttft_values (results : List RequestOutcome) : List ℚ :=
  (successfulResults results).filterMap RequestOutcome.ttftField

/-- `np.mean` on a sample (the analyzer only applies it to non-empty
samples). -/
def listMean (xs : List ℚ) : ℚ := xs.sum / (xs.length : ℚ)

/-- Insertion into a sorted list, for the percentile's sort. -/
def insertSorted (x : ℚ) : List ℚ → List ℚ
  | [] => [x]
  | y :: ys => if x ≤ y then x :: y :: ys else y :: insertSorted x ys

/-- Ascending insertion sort of a rational sample. -/
def sortRat (xs : List ℚ) : List ℚ := xs.foldr insertSorted []

/-- `np.percentile(xs, p)` with numpy's default linear-interpolation
method over the sorted sample. -/
def percentileLinear (xs : List ℚ) (p : ℚ) : ℚ :=
  let s := sortRat xs
  let n := s.length
  let idx : ℚ := ((n : ℚ) - 1) * p / 100
  let lo := Int.toNat ⌊idx⌋
  let xlo := s.getD lo 0
  let xhi := s.getD (lo + 1) xlo
  xlo + (idx - (lo : ℚ)) * (xhi - xlo)

/-- `np.min` on a non-empty sample (0 on the empty sample, which the
analyzer never passes). -/
def listMin : List ℚ → ℚ
  | [] => 0
  | x :: xs => xs.foldl min x

/-- `np.max` on a non-empty sample (0 on the empty sample, which the
analyzer never passes). -/
def listMax : List ℚ → ℚ
  | [] => 0
  | x :: xs => xs.foldl max x

/-- One summary record of `analyze_context_results`.  Statistics the
zero-success branch leaves null — or omits, as it does the p95 keys —
are `Option`s set to `none`. -/
structure SummaryRecord where
  context_size : String
  concurrency : ℕ
  success_rate : ℚ
  avg_latency : Option ℚ
  p95_latency : Option ℚ
  avg_generation_tps : Option ℚ
  p95_generation_tps : Option ℚ
  avg_prompt_tps : Option ℚ
  p95_prompt_tps : Option ℚ
  avg_ttft : Option ℚ
  p95_ttft : Option ℚ
  min_ttft : Option ℚ
  max_ttft : Option ℚ
  context_chars : ℕ
  prompt_chars : ℕ
  prompt_tokens : ℕ
  total_requests : ℕ
  successful_requests : ℕ
  deriving DecidableEq

/-- The per-group body of the loop of `analyze_context_results`. -/
def summarizeGroup (g : ResultGroup) : SummaryRecord :=
  let results := g.results
  let successful := successfulResults results
  if successful.isEmpty then
    { context_size := g.context_size, concurrency := g.concurrency,
      success_rate := 0,
      avg_latency := none, p95_latency := none,
      avg_generation_tps := none, p95_generation_tps := none,
      avg_prompt_tps := none, p95_prompt_tps := none,
      avg_ttft := none, p95_ttft := none, min_ttft := none, max_ttft := none,
      context_chars := (match results with | [] => 0 | r :: _ => r.context_char_count),
      prompt_chars := (match results with | [] => 0 | r :: _ => r.prompt_char_count),
      prompt_tokens := (match results with | [] => 0 | r :: _ => r.prompt_tokens_estimate),
      total_requests := results.length, successful_requests := 0 }
  else
    let lats := latencies results
    let gens := generation_tps_values results
    let ptps := prompt_tps_values results
    let ttfts := ttft_values results
    { context_size := g.context_size, concurrency := g.concurrency,
      success_rate := (successful.length : ℚ) / (results.length : ℚ) * 100,
      avg_latency := if lats ≠ [] then some (listMean lats) else none,
      p95_latency := if lats ≠ [] then some (percentileLinear lats 95) else none,
      avg_generation_tps := if gens ≠ [] then some (listMean gens) else none,
      p95_generation_tps := if gens ≠ [] then some (percentileLinear gens 95) else none,
      avg_prompt_tps := if ptps ≠ [] then some (listMean ptps) else none,
      p95_prompt_tps := if ptps ≠ [] then some (percentileLinear ptps 95) else none,
      avg_ttft := if ttfts ≠ [] then some (listMean ttfts) else none,
      p95_ttft := if ttfts ≠ [] then some (percentileLinear ttfts 95) else none,
      min_ttft := if ttfts ≠ [] then some (listMin ttfts) else none,
      max_ttft := if ttfts ≠ [] then some (listMax ttfts) else none,
      context_chars := (match successful with | [] => 0 | r :: _ => r.context_char_count),
      prompt_chars := (match successful with | [] => 0 | r :: _ => r.prompt_char_count),
      prompt_tokens := (match successful with | [] => 0 | r :: _ => r.prompt_tokens_estimate),
      total_requests := results.length, successful_requests := successful.length }

/-- `analyze_context_results`: one summary record per group, in order. -/
def analyze_context_results (all_results : List ResultGroup) : List SummaryRecord :=
  all_results.map summarizeGroup

/-- A concrete successful outcome, produced by the driver itself: one
content chunk `"Hi"` carrying a finish reason.  Used as sample input to
orchestrator and analyzer theorems. -/
def sampleSuccess : RequestOutcome :=
  make_context_request "13t" ['a'] [] "13t-1" 1 3
    (.stream 2 [.chunk ⟨some ['H', 'i'], none, some "stop"⟩])

/-- A concrete failed outcome, produced by the driver from a timeout. -/
def sampleFailure : RequestOutcome :=
  make_context_request "13t" ['a'] [] "13t-2" 3 5 .timeout

/-- A concrete successful outcome whose stream delivered no chunks, so
its `ttft` is null. -/
def sampleSuccessNoTtft : RequestOutcome :=
  make_context_request "13t" ['a'] [] "13t-3" 1 3 (.stream 2 [])

/-! ### Helper lemmas -/

theorem div_if_pos (n : ℕ) (d : ℚ) :
    (if 0 < n then (n : ℚ) / d else 0) = (n : ℚ) / d := by
  split_ifs with h
  · rfl
  · have hn : n = 0 := by omega
    simp [hn]

theorem calculate_tokens_accurate_nonempty (text : List Char) (h : text ≠ []) :
    calculate_tokens_accurate text =
      max 1 (Int.toNat
        ⌊(chinese_chars text : ℚ) / 1.5 + (english_chars text : ℚ) / 4.0⌋) := by
  simp only [calculate_tokens_accurate, if_neg h, div_if_pos]

theorem calculate_tokens_accurate_pos (text : List Char) (h : text ≠ []) :
    1 ≤ calculate_tokens_accurate text := by
  rw [calculate_tokens_accurate_nonempty text h]
  exact le_max_left 1 _

theorem calculate_tokens_space : calculate_tokens_accurate [' '] = 1 := by
  rw [calculate_tokens_accurate_nonempty _ (by decide)]
  rw [show chinese_chars [' '] = 0 from by decide,
      show english_chars [' '] = 1 from by decide]
  norm_num

theorem calculate_tokens_Hi : calculate_tokens_accurate ['H', 'i'] = 1 := by
  rw [calculate_tokens_accurate_nonempty _ (by decide)]
  rw [show chinese_chars ['H', 'i'] = 0 from by decide,
      show english_chars ['H', 'i'] = 2 from by decide]
  norm_num

theorem process_stream_Hi :
    process_stream 2 [.chunk ⟨some ['H', 'i'], none, some "stop"⟩] =
      .ok (some 2, 1, 1, 0) := by
  simp [process_stream, streamLoop, chunkContent, chunkReasoning,
    calculate_tokens_Hi]

theorem process_stream_empty (tFirst : ℚ) :
    process_stream tFirst [] = .ok (none, 0, 0, 0) := rfl

theorem make_context_request_stream_ok (context_size : String)
    (context_content question : List Char) (request_id : String)
    (start_time end_time tFirst : ℚ) (events : List StreamEvent)
    (ftt : Option ℚ) (tot ct rt : ℕ)
    (hok : process_stream tFirst events = .ok (ftt, tot, ct, rt)) :
    make_context_request context_size context_content question request_id
        start_time end_time (.stream tFirst events) =
      { request_id := request_id, context_size := context_size,
        context_char_count := context_content.length,
        prompt_char_count := (fullPrompt context_size context_content question).length,
        prompt_tokens_estimate :=
          calculate_tokens_accurate (fullPrompt context_size context_content question),
        payload := .ok
          { total_tokens := tot, content_tokens := ct, reasoning_tokens := rt,
            elapsed_time := end_time - start_time,
            generation_throughput :=
              generationThroughputOf (end_time - start_time) tot,
            prompt_throughput :=
              promptThroughputOf
                (calculate_tokens_accurate
                  (fullPrompt context_size context_content question))
                (ttftOf start_time ftt),
            ttft := ttftOf start_time ftt,
            start_time := start_time, end_time := end_time } } := by
  simp only [make_context_request, hok]

theorem sampleSuccess_success : sampleSuccess.success = true := by
  rw [sampleSuccess, make_context_request_stream_ok "13t" ['a'] [] "13t-1" 1 3 2
    [.chunk ⟨some ['H', 'i'], none, some "stop"⟩] (some 2) 1 1 0 process_stream_Hi]
  rfl

theorem sampleFailure_success : sampleFailure.success = false := rfl

theorem sampleSuccessNoTtft_success : sampleSuccessNoTtft.success = true := by
  rw [sampleSuccessNoTtft, make_context_request_stream_ok "13t" ['a'] [] "13t-3" 1 3 2
    [] none 0 0 0 (process_stream_empty 2)]
  rfl

theorem sampleSuccess_ttftField : sampleSuccess.ttftField = some (2 - 1) := by
  rw [sampleSuccess, make_context_request_stream_ok "13t" ['a'] [] "13t-1" 1 3 2
    [.chunk ⟨some ['H', 'i'], none, some "stop"⟩] (some 2) 1 1 0 process_stream_Hi]
  show ttftOf 1 (some 2) = some (2 - 1)
  rw [ttftOf, if_pos (show (2 : ℚ) ≠ 0 from by decide)]

theorem sampleSuccessNoTtft_ttftField : sampleSuccessNoTtft.ttftField = none := by
  rw [sampleSuccessNoTtft, make_context_request_stream_ok "13t" ['a'] [] "13t-3" 1 3 2
    [] none 0 0 0 (process_stream_empty 2)]
  rfl

theorem sampleSuccessNoTtft_ptp : sampleSuccessNoTtft.promptThroughput = 0 := by
  rw [sampleSuccessNoTtft, make_context_request_stream_ok "13t" ['a'] [] "13t-3" 1 3 2
    [] none 0 0 0 (process_stream_empty 2)]
  rfl

theorem ttftOf_pos (start_time : ℚ) (ftt : Option ℚ)
    (hpos : ∀ t, ftt = some t → 0 < t) :
    ttftOf start_time ftt = ftt.map (fun t => t - start_time) := by
  cases ftt with
  | none => rfl
  | some t =>
    have ht := hpos t rfl
    simp [ttftOf, ne_of_gt ht]

theorem generationThroughputOf_eq (e : ℚ) (tot : ℕ) :
    generationThroughputOf e tot =
      (if e ≤ 0 ∨ tot = 0 then 0 else (tot : ℚ) / e) := by
  unfold generationThroughputOf
  split_ifs with h1 h2 h2
  · rcases h2 with h2 | h2
    · exact absurd h1.1 (not_lt.mpr h2)
    · exact absurd h1.2 (by omega)
  · rfl
  · rfl
  · push_neg at h2
    exact absurd ⟨h2.1, Nat.pos_of_ne_zero h2.2⟩ h1

theorem promptThroughputOf_eq (est : ℕ) (ttft : Option ℚ) :
    promptThroughputOf est ttft =
      (match ttft with
       | none => 0
       | some x => if x ≤ 0 then 0 else (est : ℚ) / x) := by
  cases ttft with
  | none => rfl
  | some x =>
    show (if 0 < x then (est : ℚ) / x else 0) =
      (if x ≤ 0 then 0 else (est : ℚ) / x)
    split_ifs with h1 h2 h2
    · linarith
    · rfl
    · rfl
    · exact absurd (not_le.mp h2) h1

theorem streamLoop_append_error (m ty : String) (rest : List StreamEvent) :
    ∀ (pre : List StreamEvent), (∀ ev ∈ pre, isOpenChunk ev = true) →
    ∀ (tFirst : ℚ) (ftt : Option ℚ) (content reasoning : List Char) (count : ℕ),
    streamLoop tFirst ftt content reasoning count (pre ++ .error m ty :: rest) =
      .raised m ty (if pre.isEmpty then ftt else some (ftt.getD tFirst))
        (content ++ accContent pre) := by
  intro pre
  induction pre with
  | nil =>
    intro _ tFirst ftt content reasoning count
    simp [streamLoop, accContent]
  | cons ev pre ih =>
    intro h tFirst ftt content reasoning count
    cases ev with
    | error m2 ty2 =>
      have hev := h _ (List.mem_cons_self _ _)
      simp [isOpenChunk] at hev
    | chunk ch =>
      have hch : ch.finish_reason = none := by
        have hev := h _ (List.mem_cons_self _ _)
        simpa [isOpenChunk, Option.isNone_iff_eq_none] using hev
      simp only [List.cons_append, streamLoop, hch, Option.isSome_none,
        Bool.false_eq_true, if_false, List.append_eq]
      rw [ih (fun e he => h e (List.mem_cons_of_mem _ he))]
      simp [accContent, List.append_assoc]

theorem seqLoop_fail (req : ℕ → RequestOutcome) :
    ∀ (k fuel i : ℕ), k < fuel →
      (∀ j, j < k → (req (i + j)).success = true) →
      (req (i + k)).success = false →
      seqLoop req i fuel =
        ((List.range k).map (fun j => req (i + j)) ++ [req (i + k)], true) := by
  intro k
  induction k with
  | zero =>
    intro fuel i hk _ hfail
    match fuel, hk with
    | fuel + 1, _ =>
      rw [Nat.add_zero] at hfail
      simp [seqLoop, hfail]
  | succ k ih =>
    intro fuel i hk hsucc hfail
    match fuel, hk with
    | fuel + 1, hk =>
      have h0 : (req i).success = true := by
        have h := hsucc 0 (Nat.succ_pos k)
        rwa [Nat.add_zero] at h
      have hrec := ih fuel (i + 1) (by omega)
        (fun j hj => by
          have h := hsucc (j + 1) (by omega)
          rwa [show i + (j + 1) = i + 1 + j from by omega] at h)
        (by
          have h := hfail
          rwa [show i + (k + 1) = i + 1 + k from by omega] at h)
      have hmaps : (List.map Nat.succ (List.range k)).map (fun j => req (i + j)) =
          (List.range k).map (fun j => req (i + 1 + j)) := by
        rw [List.map_map]
        refine List.map_congr_left ?_
        intro a _
        show req (i + Nat.succ a) = req (i + 1 + a)
        congr 1
        omega
      have hlast : i + (k + 1) = i + 1 + k := by omega
      simp only [seqLoop, h0, if_true]
      rw [hrec, List.range_succ_eq_map, List.map_cons, hmaps, hlast]
      simp

theorem seqLoop_fail_zero (req : ℕ → RequestOutcome) (k fuel : ℕ) (hk : k < fuel)
    (hsucc : ∀ j, j < k → (req j).success = true)
    (hfail : (req k).success = false) :
    seqLoop req 0 fuel = ((List.range k).map req ++ [req k], true) := by
  have h := seqLoop_fail req k fuel 0 hk
    (fun j hj => by rw [Nat.zero_add]; exact hsucc j hj)
    (by rw [Nat.zero_add]; exact hfail)
  simpa using h

theorem filter_pos_map_eq (l : List RequestOutcome)
    (h : ∀ r ∈ l, 0 ≤ r.promptThroughput) :
    (l.filter (fun r => decide (0 < r.promptThroughput))).map
        RequestOutcome.promptThroughput =
      (l.map RequestOutcome.promptThroughput).filter (fun v => decide (v ≠ 0)) := by
  induction l with
  | nil => rfl
  | cons r l ih =>
    have hr := h r (List.mem_cons_self _ _)
    have hrec := ih (fun x hx => h x (List.mem_cons_of_mem _ hx))
    by_cases hp : 0 < r.promptThroughput
    · simp [List.filter_cons, List.map_cons, hp, ne_of_gt hp, hrec]
    · have h0 : r.promptThroughput = 0 := le_antisymm (not_lt.mp hp) hr
      simp [List.filter_cons, List.map_cons, hp, h0, hrec]

theorem filterMap_eq_filter_map (l : List RequestOutcome) :
    l.filterMap RequestOutcome.ttftField =
      (l.filter (fun r => r.ttftField.isSome)).map (fun r => r.ttftField.getD 0) := by
  induction l with
  | nil => rfl
  | cons r l ih =>
    cases hr : r.ttftField with
    | none => simp [List.filterMap_cons, List.filter_cons, hr, ih]
    | some x => simp [List.filterMap_cons, List.filter_cons, hr, ih]

/-! ### C3: token-estimator contract -/

/-- **C3.** The token estimator returns 0 on empty text; on non-empty text
the fallback heuristic returns `max 1 ⌊cjk/1.5 + other/4.0⌋` where `cjk`
counts characters in U+4E00..U+9FFF and `other` the rest; hence the
estimate is at least 1 on every non-empty text. -/
theorem c3_token_estimator_fallback (text : List Char) :
    (text = [] → calculate_tokens_accurate text = 0) ∧
    (text ≠ [] →
      calculate_tokens_accurate text =
        max 1 (Int.toNat
          ⌊(chinese_chars text : ℚ) / 1.5 + (english_chars text : ℚ) / 4.0⌋) ∧
      1 ≤ calculate_tokens_accurate text) := by
  refine ⟨fun h => by simp [calculate_tokens_accurate, h], fun h => ?_⟩
  exact ⟨calculate_tokens_accurate_nonempty text h,
    calculate_tokens_accurate_pos text h⟩

/-- Witness for C3 at the concrete texts `""` and `"hi"`. -/
theorem c3_token_estimator_fallback_witness :
    calculate_tokens_accurate [] = 0 ∧
    calculate_tokens_accurate ['h', 'i'] =
      max 1 (Int.toNat
        ⌊(chinese_chars ['h', 'i'] : ℚ) / 1.5 + (english_chars ['h', 'i'] : ℚ) / 4.0⌋) ∧
    1 ≤ calculate_tokens_accurate ['h', 'i'] :=
  ⟨(c3_token_estimator_fallback []).1 rfl,
   ((c3_token_estimator_fallback ['h', 'i']).2 (by decide)).1,
   ((c3_token_estimator_fallback ['h', 'i']).2 (by decide)).2⟩

/-! ### C9: pure-text estimates -/

theorem calculate_tokens_two_cjk : calculate_tokens_accurate ['中', '中'] = 1 := by
  rw [calculate_tokens_accurate_nonempty _ (by decide)]
  rw [show chinese_chars ['中', '中'] = 2 from by decide,
      show english_chars ['中', '中'] = 0 from by decide]
  norm_num

theorem ceil_two_div_threehalves : Int.toNat ⌈((2 : ℕ) : ℚ) / 1.5⌉ = 2 := by
  have h2 : ⌈((2 : ℕ) : ℚ) / 1.5⌉ = (2 : ℤ) := by
    rw [Int.ceil_eq_iff]
    constructor <;> norm_num
  rw [h2]
  rfl

/-- **C9, counterexample.** The claim says a pure-CJK text of `n`
characters is estimated at `⌈n/1.5⌉`.  The source computes
`max 1 ⌊n/1.5⌋` instead: at the two-character text `"中中"` the code
yields `max 1 ⌊4/3⌋ = 1`, while `⌈4/3⌉ = 2`. -/
theorem c9_pure_text_counterexample :
    (∀ c ∈ ['中', '中'], isCJK c = true) ∧
    calculate_tokens_accurate ['中', '中'] = 1 ∧
    Int.toNat ⌈((['中', '中'].length : ℕ) : ℚ) / 1.5⌉ = 2 ∧
    calculate_tokens_accurate ['中', '中'] ≠
      Int.toNat ⌈((['中', '中'].length : ℕ) : ℚ) / 1.5⌉ := by
  have hlen : (['中', '中'].length : ℕ) = 2 := by decide
  rw [hlen]
  refine ⟨by decide, calculate_tokens_two_cjk, ceil_two_div_threehalves, ?_⟩
  rw [calculate_tokens_two_cjk, ceil_two_div_threehalves]
  decide

/-- **C9, amended.** On the fallback path, a non-empty text of `n` pure
CJK characters is estimated at `max 1 ⌊n/1.5⌋`, and a non-empty text of
`n` pure non-CJK characters at `max 1 ⌊n/4.0⌋` — floor with a minimum of
one, not ceiling. -/
theorem c9_pure_text_amended (text : List Char) (hne : text ≠ []) :
    ((∀ c ∈ text, isCJK c = true) →
      calculate_tokens_accurate text =
        max 1 (Int.toNat ⌊((text.length : ℕ) : ℚ) / 1.5⌋)) ∧
    ((∀ c ∈ text, isCJK c = false) →
      calculate_tokens_accurate text =
        max 1 (Int.toNat ⌊((text.length : ℕ) : ℚ) / 4.0⌋)) := by
  constructor
  · intro hall
    have hc : chinese_chars text = text.length := by
      unfold chinese_chars
      rw [List.filter_eq_self.mpr hall]
    have he : english_chars text = 0 := by
      unfold english_chars
      omega
    rw [calculate_tokens_accurate_nonempty text hne, hc, he]
    norm_num
  · intro hall
    have hc : chinese_chars text = 0 := by
      unfold chinese_chars
      have hnil : text.filter isCJK = [] := by
        rw [List.filter_eq_nil_iff]
        intro a ha
        simp [hall a ha]
      rw [hnil]
      rfl
    have he : english_chars text = text.length := by
      unfold english_chars
      omega
    rw [calculate_tokens_accurate_nonempty text hne, hc, he]
    norm_num

/-- Witness for the amended C9 at `"中"` and `"abcde"`. -/
theorem c9_pure_text_amended_witness :
    calculate_tokens_accurate ['中'] =
      max 1 (Int.toNat ⌊((['中'].length : ℕ) : ℚ) / 1.5⌋) ∧
    calculate_tokens_accurate ['a', 'b', 'c', 'd', 'e'] =
      max 1 (Int.toNat ⌊((['a', 'b', 'c', 'd', 'e'].length : ℕ) : ℚ) / 4.0⌋) :=
  ⟨(c9_pure_text_amended ['中'] (by decide)).1 (by decide),
   (c9_pure_text_amended ['a', 'b', 'c', 'd', 'e'] (by decide)).2 (by decide)⟩

/-! ### C1: sequential-mode halt on first failure -/

/-- **C1.** In sequential mode (`concurrency = 1`), if the first `k`
attempts of the first context size succeed and attempt `k` fails (with
`k < requests_per_size`), the orchestrator stops issuing requests for
that size at the failed attempt — its group keeps exactly the outcomes
collected so far with the failed one last — and attempts no further
context sizes: the run returns exactly that one group. -/
theorem c1_sequential_halt (req : String → ℕ → RequestOutcome)
    (num_requests_per_size : ℕ) (s : String) (rest : List String) (k : ℕ)
    (hk : k < num_requests_per_size)
    (hsucc : ∀ j, j < k → (req s j).success = true)
    (hfail : (req s k).success = false) :
    run_context_benchmark req num_requests_per_size (s :: rest) =
      [{ context_size := s, concurrency := 1,
         results := (List.range k).map (req s) ++ [req s k] }] := by
  have h := seqLoop_fail_zero (req s) k num_requests_per_size hk hsucc hfail
  simp [run_context_benchmark, h]

/-- Witness for C1, the spec's own scenario: 3 context sizes, 2 requests
per size, an oracle succeeding on the 1st request of size `"1k"` and
failing on its 2nd; the run returns exactly one group holding one
success then one failure, and sizes `"2k"`, `"4k"` never start. -/
theorem c1_sequential_halt_witness :
    run_context_benchmark
        (fun s i => if s = "1k" ∧ i = 0 then sampleSuccess else sampleFailure) 2
        ["1k", "2k", "4k"] =
      [{ context_size := "1k", concurrency := 1,
         results := [sampleSuccess, sampleFailure] }] ∧
    sampleSuccess.success = true ∧ sampleFailure.success = false := by
  refine ⟨?_, sampleSuccess_success, sampleFailure_success⟩
  have h := c1_sequential_halt
    (fun s i => if s = "1k" ∧ i = 0 then sampleSuccess else sampleFailure) 2 "1k"
    ["2k", "4k"] 1 (by decide)
    (fun j hj => by
      have hj0 : j = 0 := by omega
      subst hj0
      show (if ("1k" = "1k" ∧ (0 : ℕ) = 0) then sampleSuccess
          else sampleFailure).success = true
      rw [if_pos (by decide)]
      exact sampleSuccess_success)
    (by
      show (if ("1k" = "1k" ∧ (1 : ℕ) = 0) then sampleSuccess
          else sampleFailure).success = false
      rw [if_neg (by decide)]
      exact sampleFailure_success)
  simpa using h

/-! ### C2: success-path metric formulas -/

/-- **C2.** On every successful outcome: `elapsed = end_time - start_time`;
`ttft = first_token_time - start_time` and is null when no token
arrived; `generation_throughput = total_tokens / elapsed` except 0 when
`elapsed ≤ 0` or `total_tokens = 0`; `prompt_throughput =
prompt_tokens_estimate / ttft` except 0 when `ttft` is absent or `≤ 0`.
The hypothesis `hpos` states that a recorded first-token wall-clock time
is positive, as every `time.time()` reading is; without it Python's
truthiness test `if first_token_time` would also nullify a (physically
impossible) first-token time of exactly `0.0`. -/
theorem c2_success_metrics (context_size : String)
    (context_content question : List Char) (request_id : String)
    (start_time end_time tFirst : ℚ) (events : List StreamEvent)
    (ftt : Option ℚ) (tot ct rt : ℕ)
    (hok : process_stream tFirst events = .ok (ftt, tot, ct, rt))
    (hpos : ∀ t, ftt = some t → 0 < t) :
    (make_context_request context_size context_content question request_id
        start_time end_time (.stream tFirst events)).success = true ∧
    (make_context_request context_size context_content question request_id
        start_time end_time (.stream tFirst events)).elapsedTime =
      end_time - start_time ∧
    (make_context_request context_size context_content question request_id
        start_time end_time (.stream tFirst events)).ttftField =
      ftt.map (fun t => t - start_time) ∧
    (ftt = none →
      (make_context_request context_size context_content question request_id
          start_time end_time (.stream tFirst events)).ttftField = none) ∧
    (make_context_request context_size context_content question request_id
        start_time end_time (.stream tFirst events)).generationThroughput =
      (if end_time - start_time ≤ 0 ∨ tot = 0 then 0
       else (tot : ℚ) / (end_time - start_time)) ∧
    (make_context_request context_size context_content question request_id
        start_time end_time (.stream tFirst events)).promptThroughput =
      (match (make_context_request context_size context_content question request_id
          start_time end_time (.stream tFirst events)).ttftField with
       | none => 0
       | some x => if x ≤ 0 then 0 else
          (calculate_tokens_accurate
            (fullPrompt context_size context_content question) : ℚ) / x) := by
  have hmk := make_context_request_stream_ok context_size context_content question
    request_id start_time end_time tFirst events ftt tot ct rt hok
  rw [hmk]
  refine ⟨rfl, rfl, ttftOf_pos start_time ftt hpos, ?_, ?_, ?_⟩
  · intro hf
    rw [hf]
    rfl
  · exact generationThroughputOf_eq (end_time - start_time) tot
  · exact promptThroughputOf_eq
      (calculate_tokens_accurate (fullPrompt context_size context_content question))
      (ttftOf start_time ftt)

/-- Witness for C2 at a concrete request: template `"13t"` with content
`"a"`, start time 1, end time 3, one stream chunk `"Hi"` first seen at
time 2. -/
theorem c2_success_metrics_witness :
    (make_context_request "13t" ['a'] [] "13t-1" 1 3
        (.stream 2 [.chunk ⟨some ['H', 'i'], none, some "stop"⟩])).success = true ∧
    (make_context_request "13t" ['a'] [] "13t-1" 1 3
        (.stream 2 [.chunk ⟨some ['H', 'i'], none, some "stop"⟩])).elapsedTime =
      3 - 1 ∧
    (make_context_request "13t" ['a'] [] "13t-1" 1 3
        (.stream 2 [.chunk ⟨some ['H', 'i'], none, some "stop"⟩])).ttftField =
      (some (2 : ℚ)).map (fun t => t - 1) ∧
    ((some (2 : ℚ)) = none →
      (make_context_request "13t" ['a'] [] "13t-1" 1 3
          (.stream 2 [.chunk ⟨some ['H', 'i'], none, some "stop"⟩])).ttftField =
        none) ∧
    (make_context_request "13t" ['a'] [] "13t-1" 1 3
        (.stream 2 [.chunk ⟨some ['H', 'i'], none, some "stop"⟩])).generationThroughput =
      (if (3 : ℚ) - 1 ≤ 0 ∨ (1 : ℕ) = 0 then 0
       else ((1 : ℕ) : ℚ) / ((3 : ℚ) - 1)) ∧
    (make_context_request "13t" ['a'] [] "13t-1" 1 3
        (.stream 2 [.chunk ⟨some ['H', 'i'], none, some "stop"⟩])).promptThroughput =
      (match (make_context_request "13t" ['a'] [] "13t-1" 1 3
          (.stream 2 [.chunk ⟨some ['H', 'i'], none, some "stop"⟩])).ttftField with
       | none => 0
       | some x => if x ≤ 0 then 0 else
          (calculate_tokens_accurate (fullPrompt "13t" ['a'] []) : ℚ) / x) :=
  c2_success_metrics "13t" ['a'] [] "13t-1" 1 3 2
    [.chunk ⟨some ['H', 'i'], none, some "stop"⟩] (some 2) 1 1 0
    process_stream_Hi
    (fun t ht => by
      injection ht with h
      subst h
      decide)

/-! ### C4: zero-token guard of the stream consumer -/

/-- **C4.** When the stream loop ran to completion having processed at
least one chunk but token estimation on the accumulated buffers yields
zero, `process_stream` forces `total_tokens = content_tokens = 1`; and
in particular one whitespace-only chunk followed by an end marker yields
`total_tokens = content_tokens = 1` (there not via the guard but via the
estimator's minimum of one on the non-empty accumulated text). -/
theorem c4_zero_token_guard :
    (∀ (tFirst : ℚ) (events : List StreamEvent) (ftt : Option ℚ)
        (content reasoning : List Char) (count : ℕ),
      streamLoop tFirst none [] [] 0 events = .done ftt content reasoning count →
      0 < count →
      (if content ≠ [] then calculate_tokens_accurate content else 0) +
        (if reasoning ≠ [] then calculate_tokens_accurate reasoning else 0) = 0 →
      process_stream tFirst events = .ok (ftt, 1, 1, 0)) ∧
    process_stream 5 [.chunk ⟨some [' '], none, none⟩,
        .chunk ⟨none, none, some "stop"⟩] = .ok (some 5, 1, 1, 0) := by
  constructor
  · intro tFirst events ftt content reasoning count hloop hcount hzero
    have hr : (if reasoning ≠ [] then calculate_tokens_accurate reasoning else 0)
        = 0 := by omega
    simp only [process_stream, hloop]
    rw [if_pos ⟨hcount, hzero⟩, hr]
  · simp [process_stream, streamLoop, chunkContent, chunkReasoning,
      calculate_tokens_space]

/-- Witness for the guard part of C4: a single chunk carrying no text but
a finish reason — a chunk was received, estimation yields zero, the
result is forced to one token. -/
theorem c4_zero_token_guard_witness :
    process_stream 0 [.chunk ⟨none, none, some "stop"⟩] = .ok (some 0, 1, 1, 0) :=
  c4_zero_token_guard.1 0 [.chunk ⟨none, none, some "stop"⟩] (some 0) [] [] 1
    rfl (by decide) (by decide)

/-! ### C5: failure outcomes of the request driver -/

/-- **C5.** The request driver never raises (it is a total function of the
abstracted transport): a timeout produces a failure payload with error
kind `"timeout"` and no exception type name, and any other transport
exception produces a failure payload carrying the exception's message
and type name — the two are distinguished by the `error_type` field —
and both carry the precomputed prompt character count, prompt token
estimate and context character count, while a `fail` payload carries no
timing or throughput fields at all. -/
theorem c5_failure_outcomes (context_size : String)
    (context_content question : List Char) (request_id : String)
    (start_time end_time : ℚ) (m ty : String) :
    (make_context_request context_size context_content question request_id
        start_time end_time .timeout).payload = .fail "timeout" none ∧
    (make_context_request context_size context_content question request_id
        start_time end_time .timeout).success = false ∧
    (make_context_request context_size context_content question request_id
        start_time end_time .timeout).prompt_char_count =
      (fullPrompt context_size context_content question).length ∧
    (make_context_request context_size context_content question request_id
        start_time end_time .timeout).prompt_tokens_estimate =
      calculate_tokens_accurate (fullPrompt context_size context_content question) ∧
    (make_context_request context_size context_content question request_id
        start_time end_time .timeout).context_char_count =
      context_content.length ∧
    (make_context_request context_size context_content question request_id
        start_time end_time (.raised m ty)).payload = .fail m (some ty) ∧
    (make_context_request context_size context_content question request_id
        start_time end_time (.raised m ty)).success = false ∧
    (make_context_request context_size context_content question request_id
        start_time end_time (.raised m ty)).prompt_char_count =
      (fullPrompt context_size context_content question).length ∧
    (make_context_request context_size context_content question request_id
        start_time end_time (.raised m ty)).prompt_tokens_estimate =
      calculate_tokens_accurate (fullPrompt context_size context_content question) ∧
    (make_context_request context_size context_content question request_id
        start_time end_time (.raised m ty)).context_char_count =
      context_content.length :=
  ⟨rfl, rfl, rfl, rfl, rfl, rfl, rfl, rfl, rfl, rfl⟩

/-! ### C6: salvage of a partially streamed response -/

/-- **C6.** If stream consumption raises after at least one chunk had
already arrived (so a first-token time is recorded), the attempt is not
discarded: `process_stream` salvages a successful result whose token
count is estimated from whatever partial content was accumulated, is at
least 1, and the driver turns it into a success-flagged outcome. -/
theorem c6_partial_stream_salvage (context_size : String)
    (context_content question : List Char) (request_id : String)
    (start_time end_time tFirst : ℚ) (pre rest : List StreamEvent) (m ty : String)
    (hne : pre ≠ []) (hopen : ∀ ev ∈ pre, isOpenChunk ev = true) :
    process_stream tFirst (pre ++ .error m ty :: rest) =
      .ok (some tFirst,
        (if accContent pre ≠ [] then calculate_tokens_accurate (accContent pre)
         else 1),
        (if accContent pre ≠ [] then calculate_tokens_accurate (accContent pre)
         else 1),
        0) ∧
    1 ≤ (if accContent pre ≠ [] then calculate_tokens_accurate (accContent pre)
         else 1) ∧
    (make_context_request context_size context_content question request_id
        start_time end_time
        (.stream tFirst (pre ++ .error m ty :: rest))).success = true := by
  have hempty : pre.isEmpty = false := by
    cases pre with
    | nil => exact absurd rfl hne
    | cons a l => rfl
  have hloop := streamLoop_append_error m ty rest pre hopen tFirst none [] [] 0
  simp only [hempty, Bool.false_eq_true, if_false, Option.getD_none,
    List.nil_append] at hloop
  have hps : process_stream tFirst (pre ++ .error m ty :: rest) =
      .ok (some tFirst,
        (if accContent pre ≠ [] then calculate_tokens_accurate (accContent pre)
         else 1),
        (if accContent pre ≠ [] then calculate_tokens_accurate (accContent pre)
         else 1),
        0) := by
    simp only [process_stream, hloop]
  refine ⟨hps, ?_, ?_⟩
  · split_ifs with h
    · exact calculate_tokens_accurate_pos _ h
    · exact le_refl 1
  · have hmk := make_context_request_stream_ok context_size context_content
      question request_id start_time end_time tFirst
      (pre ++ .error m ty :: rest) (some tFirst) _ _ _ hps
    rw [hmk]
    rfl

/-- Witness for C6: a stream delivering the chunk `"Hi"` and then raising;
the attempt is salvaged as a one-token success. -/
theorem c6_partial_stream_salvage_witness :
    process_stream 2
        ([.chunk ⟨some ['H', 'i'], none, none⟩] ++ .error "boom" "ValueError" :: []) =
      .ok (some 2,
        (if accContent [.chunk ⟨some ['H', 'i'], none, none⟩] ≠ [] then
          calculate_tokens_accurate (accContent [.chunk ⟨some ['H', 'i'], none, none⟩])
         else 1),
        (if accContent [.chunk ⟨some ['H', 'i'], none, none⟩] ≠ [] then
          calculate_tokens_accurate (accContent [.chunk ⟨some ['H', 'i'], none, none⟩])
         else 1),
        0) ∧
    1 ≤ (if accContent [.chunk ⟨some ['H', 'i'], none, none⟩] ≠ [] then
          calculate_tokens_accurate (accContent [.chunk ⟨some ['H', 'i'], none, none⟩])
         else 1) ∧
    (make_context_request "13t" ['a'] [] "13t-4" 1 3
        (.stream 2
          ([.chunk ⟨some ['H', 'i'], none, none⟩] ++
            .error "boom" "ValueError" :: []))).success = true :=
  c6_partial_stream_salvage "13t" ['a'] [] "13t-4" 1 3 2
    [.chunk ⟨some ['H', 'i'], none, none⟩] [] "boom" "ValueError"
    (by decide) (by decide)

/-! ### C7: analyzer on groups without successes -/

/-- **C7.** For a result group with zero successful outcomes the analyzer
emits a record with `success_rate = 0` and every latency/throughput/TTFT
statistic null, while preserving the total and successful request counts
and — when at least one outcome exists — that first outcome's
context/prompt size metrics. -/
theorem c7_zero_success_summary (g : ResultGroup)
    (h : successfulResults g.results = []) :
    analyze_context_results [g] = [summarizeGroup g] ∧
    (summarizeGroup g).success_rate = 0 ∧
    (summarizeGroup g).avg_latency = none ∧
    (summarizeGroup g).p95_latency = none ∧
    (summarizeGroup g).avg_generation_tps = none ∧
    (summarizeGroup g).p95_generation_tps = none ∧
    (summarizeGroup g).avg_prompt_tps = none ∧
    (summarizeGroup g).p95_prompt_tps = none ∧
    (summarizeGroup g).avg_ttft = none ∧
    (summarizeGroup g).p95_ttft = none ∧
    (summarizeGroup g).min_ttft = none ∧
    (summarizeGroup g).max_ttft = none ∧
    (summarizeGroup g).total_requests = g.results.length ∧
    (summarizeGroup g).successful_requests = 0 ∧
    (∀ r rest, g.results = r :: rest →
      (summarizeGroup g).context_chars = r.context_char_count ∧
      (summarizeGroup g).prompt_chars = r.prompt_char_count ∧
      (summarizeGroup g).prompt_tokens = r.prompt_tokens_estimate) := by
  have hsum : summarizeGroup g =
      { context_size := g.context_size, concurrency := g.concurrency,
        success_rate := 0,
        avg_latency := none, p95_latency := none,
        avg_generation_tps := none, p95_generation_tps := none,
        avg_prompt_tps := none, p95_prompt_tps := none,
        avg_ttft := none, p95_ttft := none, min_ttft := none, max_ttft := none,
        context_chars :=
          (match g.results with | [] => 0 | r :: _ => r.context_char_count),
        prompt_chars :=
          (match g.results with | [] => 0 | r :: _ => r.prompt_char_count),
        prompt_tokens :=
          (match g.results with | [] => 0 | r :: _ => r.prompt_tokens_estimate),
        total_requests := g.results.length, successful_requests := 0 } := by
    simp only [summarizeGroup, h, List.isEmpty_nil, if_true]
  refine ⟨rfl, ?_⟩
  rw [hsum]
  refine ⟨rfl, rfl, rfl, rfl, rfl, rfl, rfl, rfl, rfl, rfl, rfl, rfl, rfl, ?_⟩
  intro r rest hr
  rw [hr]
  exact ⟨rfl, rfl, rfl⟩

/-- Witness for C7 at a group holding a single failed outcome. -/
theorem c7_zero_success_summary_witness :
    analyze_context_results [⟨"1k", 1, [sampleFailure]⟩] =
      [summarizeGroup ⟨"1k", 1, [sampleFailure]⟩] ∧
    (summarizeGroup ⟨"1k", 1, [sampleFailure]⟩).success_rate = 0 ∧
    (summarizeGroup ⟨"1k", 1, [sampleFailure]⟩).avg_latency = none ∧
    (summarizeGroup ⟨"1k", 1, [sampleFailure]⟩).min_ttft = none ∧
    (summarizeGroup ⟨"1k", 1, [sampleFailure]⟩).total_requests =
      ([sampleFailure] : List RequestOutcome).length ∧
    (summarizeGroup ⟨"1k", 1, [sampleFailure]⟩).successful_requests = 0 ∧
    (summarizeGroup ⟨"1k", 1, [sampleFailure]⟩).context_chars =
      sampleFailure.context_char_count ∧
    (summarizeGroup ⟨"1k", 1, [sampleFailure]⟩).prompt_chars =
      sampleFailure.prompt_char_count ∧
    (summarizeGroup ⟨"1k", 1, [sampleFailure]⟩).prompt_tokens =
      sampleFailure.prompt_tokens_estimate := by
  have h := c7_zero_success_summary ⟨"1k", 1, [sampleFailure]⟩
    (by simp [successfulResults, List.filter_cons, sampleFailure_success])
  obtain ⟨h1, h2, h3, h4, h5, h6, h7, h8, h9, h10, h11, h12, h13, h14, hlast⟩ := h
  obtain ⟨hc, hp, ht⟩ := hlast sampleFailure [] rfl
  exact ⟨h1, h2, h3, h11, h13, h14, hc, hp, ht⟩

/-! ### C8: which outcomes feed each statistic -/

/-- **C8, counterexample.** The claim says the TTFT statistic ranges over
all successful outcomes of the group.  It does not: the analyzer drops
successful outcomes whose `ttft` is null.  Concretely, for a group of
two driver-produced successes, one of them with a null `ttft` (its
stream delivered zero chunks), the TTFT sample has one entry while there
are two successful outcomes. -/
theorem c8_ttft_counterexample :
    (successfulResults [sampleSuccess, sampleSuccessNoTtft]).length = 2 ∧
    (ttft_values [sampleSuccess, sampleSuccessNoTtft]).length = 1 ∧
    (ttft_values [sampleSuccess, sampleSuccessNoTtft]).length ≠
      (successfulResults [sampleSuccess, sampleSuccessNoTtft]).length := by
  have hsf : successfulResults [sampleSuccess, sampleSuccessNoTtft] =
      [sampleSuccess, sampleSuccessNoTtft] := by
    simp [successfulResults, List.filter_cons, sampleSuccess_success,
      sampleSuccessNoTtft_success]
  have htv : ttft_values [sampleSuccess, sampleSuccessNoTtft] = [2 - 1] := by
    rw [ttft_values, hsf]
    simp [List.filterMap_cons, sampleSuccess_ttftField,
      sampleSuccessNoTtft_ttftField]
  rw [hsf, htv]
  exact ⟨rfl, rfl, by decide⟩

/-- **C8, amended.** In the analyzer, the prompt-throughput sample
excludes an outcome exactly when its (never negative) value is 0 and
includes every positive value; the latency and generation-throughput
samples range over all successful outcomes of the group; the TTFT
sample ranges over the successful outcomes whose `ttft` is non-null. -/
theorem c8_statistic_inclusion_amended (results : List RequestOutcome)
    (hnn : ∀ r ∈ successfulResults results, 0 ≤ r.promptThroughput) :
    prompt_tps_values results =
      ((successfulResults results).map RequestOutcome.promptThroughput).filter
        (fun v => decide (v ≠ 0)) ∧
    latencies results =
      (successfulResults results).map RequestOutcome.elapsedTime ∧
    (latencies results).length = (successfulResults results).length ∧
    generation_tps_values results =
      (successfulResults results).map RequestOutcome.generationThroughput ∧
    (generation_tps_values results).length =
      (successfulResults results).length ∧
    ttft_values results =
      ((successfulResults results).filter
          (fun r => r.ttftField.isSome)).map (fun r => r.ttftField.getD 0) :=
  ⟨filter_pos_map_eq _ hnn, rfl, by simp [latencies], rfl,
   by simp [generation_tps_values], filterMap_eq_filter_map _⟩

/-- Witness for the amended C8 at a singleton group of one success whose
prompt throughput is 0 and whose `ttft` is null. -/
theorem c8_statistic_inclusion_amended_witness :
    prompt_tps_values [sampleSuccessNoTtft] =
      ((successfulResults [sampleSuccessNoTtft]).map
          RequestOutcome.promptThroughput).filter (fun v => decide (v ≠ 0)) ∧
    latencies [sampleSuccessNoTtft] =
      (successfulResults [sampleSuccessNoTtft]).map
        RequestOutcome.elapsedTime ∧
    (latencies [sampleSuccessNoTtft]).length =
      (successfulResults [sampleSuccessNoTtft]).length ∧
    generation_tps_values [sampleSuccessNoTtft] =
      (successfulResults [sampleSuccessNoTtft]).map
        RequestOutcome.generationThroughput ∧
    (generation_tps_values [sampleSuccessNoTtft]).length =
      (successfulResults [sampleSuccessNoTtft]).length ∧
    ttft_values [sampleSuccessNoTtft] =
      ((successfulResults [sampleSuccessNoTtft]).filter
          (fun r => r.ttftField.isSome)).map (fun r => r.ttftField.getD 0) :=
  c8_statistic_inclusion_amended [sampleSuccessNoTtft] (by
    intro r hr
    have hrr : r = sampleSuccessNoTtft := by
      simpa [successfulResults, List.filter_cons, sampleSuccessNoTtft_success]
        using hr
    rw [hrr, sampleSuccessNoTtft_ptp])

/-! ### C10: zero-chunk streams still count as successes -/

/-- **C10.** A stream that terminates having delivered zero chunks still
produces a success-flagged outcome with
`total_tokens = content_tokens = reasoning_tokens = 0`, null `ttft`, and
both throughputs 0: the zero-token guard fires only when at least one
chunk was received, so a zero-token "successful" outcome is possible at
the driver's public interface. -/
theorem c10_zero_chunk_success (context_size : String)
    (context_content question : List Char) (request_id : String)
    (start_time end_time tFirst : ℚ) :
    (make_context_request context_size context_content question request_id
        start_time end_time (.stream tFirst [])).success = true ∧
    (make_context_request context_size context_content question request_id
        start_time end_time (.stream tFirst [])).totalTokens = 0 ∧
    (make_context_request context_size context_content question request_id
        start_time end_time (.stream tFirst [])).contentTokens = 0 ∧
    (make_context_request context_size context_content question request_id
        start_time end_time (.stream tFirst [])).reasoningTokens = 0 ∧
    (make_context_request context_size context_content question request_id
        start_time end_time (.stream tFirst [])).ttftField = none ∧
    (make_context_request context_size context_content question request_id
        start_time end_time (.stream tFirst [])).generationThroughput = 0 ∧
    (make_context_request context_size context_content question request_id
        start_time end_time (.stream tFirst [])).promptThroughput = 0 := by
  have hmk := make_context_request_stream_ok context_size context_content question
    request_id start_time end_time tFirst [] none 0 0 0
    (process_stream_empty tFirst)
  rw [hmk]
  refine ⟨rfl, rfl, rfl, rfl, rfl, ?_, rfl⟩
  show generationThroughputOf (end_time - start_time) 0 = 0
  simp [generationThroughputOf]

end ContextBenchmarks
